import Mathlib

/-!
Verification of the `universal-mcp/linkedin` adapter
(`src/universal_mcp_linkedin/app.py`), a thin request/response layer over
the LinkedIn REST API. The embedding below translates, function by
function, the pure request-construction and response-normalization logic
of the `LinkedinApp` class: header resolution, request-body assembly for
create and update, URL construction with percent-encoding, and the
handling of HTTP responses. HTTP transport itself is external: each
operation is split into the request it emits (a pure function of its
arguments) and the result it computes from a given response.
-/

namespace LinkedinApp

/-- JSON-like values, the shape of Python dict/list/str/bool request and
response bodies built by the adapter. Objects keep key insertion order,
as Python dicts do. -/
inductive JVal where
  | str : String → JVal
  | bool : Bool → JVal
  | arr : List JVal → JVal
  | obj : List (String × JVal) → JVal

/-- Python exceptions raised by the adapter: `ValueError` with its message,
`KeyError` for a missing dict key, and the `HTTPStatusError` raised by the
shared response decoder for non-2xx statuses. -/
inductive PyError where
  | valueError : String → PyError
  | keyError : String → PyError
  | httpStatusError : Nat → PyError
deriving DecidableEq

/-- An HTTP response as seen by the adapter: status code, response headers
(an ordered mapping), and the decoded body. -/
structure HttpResponse where
  status_code : Nat
  headers : List (String × String)
  body : JVal

/-- The credentials mapping returned by `integration.get_credentials()`.
The code probes exactly two keys: an optional pre-built `headers` mapping
and an optional `access_token` string (a plain dict access, so a missing
`access_token` is a `KeyError`). -/
structure Credentials where
  headers : Option (List (String × String))
  access_token : Option String

/-- Lookup in an ordered header mapping, the embedding of
`response.headers.get(key)`. -/
def headerGet (hs : List (String × String)) (key : String) : Option String :=
  (hs.find? (fun p => p.fst == key)).map Prod.snd

/-- UTF-8 encoding of one character as a list of byte values, used because
the Python `quote` function percent-encodes the UTF-8 bytes of its input. -/
def utf8Bytes (c : Char) : List Nat :=
  let n := c.toNat
  if n < 0x80 then [n]
  else if n < 0x800 then
    [0xC0 ||| (n >>> 6), 0x80 ||| (n &&& 0x3F)]
  else if n < 0x10000 then
    [0xE0 ||| (n >>> 12), 0x80 ||| ((n >>> 6) &&& 0x3F), 0x80 ||| (n &&& 0x3F)]
  else
    [0xF0 ||| (n >>> 18), 0x80 ||| ((n >>> 12) &&& 0x3F),
     0x80 ||| ((n >>> 6) &&& 0x3F), 0x80 ||| (n &&& 0x3F)]

/-- The bytes the Python `quote` function never encodes (its ALWAYS_SAFE
set): ASCII letters, digits, and the four characters hyphen, dot,
underscore, tilde. The adapter passes an empty `safe` argument, so no
further byte is exempt. -/
def alwaysSafe (b : Nat) : Bool :=
  (65 ≤ b && b ≤ 90) || (97 ≤ b && b ≤ 122) || (48 ≤ b && b ≤ 57) ||
    b == 45 || b == 46 || b == 95 || b == 126

/-- Uppercase hexadecimal digit character for a value below 16. -/
def hexDigit (n : Nat) : Char :=
  if n < 10 then Char.ofNat (48 + n) else Char.ofNat (55 + n)

/-- Percent-encode a single byte unless it is in the ALWAYS_SAFE set. -/
def quoteByte (b : Nat) : String :=
  if alwaysSafe b then String.singleton (Char.ofNat b)
  else "%" ++ String.singleton (hexDigit (b / 16)) ++ String.singleton (hexDigit (b % 16))

/-- Embedding of `urllib.parse.quote(s, safe=<empty string>)` as the code
calls it: UTF-8 encode the string, then percent-encode every byte outside
the ALWAYS_SAFE set, with uppercase hex digits. -/
def quote (s : String) : String :=
  String.join (((s.data.map utf8Bytes).flatten).map quoteByte)

/-- The fixed base host set in `LinkedinApp.__init__`. -/
def base_url : String := "https://api.linkedin.com"

/-- Embedding of `LinkedinApp._get_headers`: no integration raises
`ValueError("Integration not found")`; a credentials mapping with a
`headers` entry is returned verbatim; otherwise the four default headers
are synthesized from the access token (whose dict access raises `KeyError`
when absent). The integration argument stands for `self.integration`,
already resolved to its credentials. -/
def _get_headers (integration : Option Credentials) :
    Except PyError (List (String × String)) :=
  match integration with
  | none => .error (.valueError "Integration not found")
  | some credentials =>
    match credentials.headers with
    | some h => .ok h
    | none =>
      match credentials.access_token with
      | some token => .ok
          [("Authorization", "Bearer " ++ token),
           ("X-Restli-Protocol-Version", "2.0.0"),
           ("Content-Type", "application/json"),
           ("LinkedIn-Version", "202507")]
      | none => .error (.keyError "access_token")

/-- Modelled from the spec: the shared response decoder `_handle_response`
inherited from the external `APIApplication` base class (not part of this
repository). Per the spec, it "raises a structured HTTP error for non-2xx
statuses not otherwise special-cased" and otherwise returns the decoded
response body unmodified. -/
def _handle_response (response : HttpResponse) : Except PyError JVal :=
  if 200 ≤ response.status_code ∧ response.status_code < 300 then
    .ok response.body
  else
    .error (.httpStatusError response.status_code)

/-- The default distribution object substituted by `create_post` when the
`distribution` argument is `None`. -/
def default_distribution : JVal :=
  .obj [("feedDistribution", .str "MAIN_FEED"),
        ("targetEntities", .arr []),
        ("thirdPartyDistributionChannels", .arr [])]

/-- Embedding of the `request_body_data` dict built by
`LinkedinApp.create_post`, including the default-distribution
substitution at the top of the method. -/
def create_post_request_body (commentary author visibility : String)
    (distribution : Option JVal) (lifecycle_state : String)
    (is_reshare_disabled : Bool) : JVal :=
  let distribution := match distribution with
    | none => default_distribution
    | some d => d
  .obj [("author", .str author),
        ("commentary", .str commentary),
        ("visibility", .str visibility),
        ("distribution", distribution),
        ("lifecycleState", .str lifecycle_state),
        ("isReshareDisabledByAuthor", .bool is_reshare_disabled)]

/-- The `create_post` request body with every optional argument left at
its Python default: `visibility="PUBLIC"`, `distribution=None`,
`lifecycle_state="PUBLISHED"`, `is_reshare_disabled=False`. -/
def create_post_request_body_defaults (commentary author : String) : JVal :=
  create_post_request_body commentary author "PUBLIC" none "PUBLISHED" false

/-- The URL `create_post` posts to. -/
def create_post_url : String := base_url ++ "/rest/posts"

/-- Embedding of the response handling of `LinkedinApp.create_post`: pass
the response through `_handle_response`, then read the `x-restli-id`
header; the Python truthiness test `if not post_id` raises the
`ValueError` both when the header is absent and when its value is the
empty string; otherwise return the post URN and the derived feed URL. -/
def create_post_result (response : HttpResponse) : Except PyError JVal :=
  match _handle_response response with
  | .error e => .error e
  | .ok _ =>
    match headerGet response.headers "x-restli-id" with
    | none => .error (.valueError "x-restli-id header not found in response")
    | some post_id =>
      if post_id == "" then
        .error (.valueError "x-restli-id header not found in response")
      else
        .ok (.obj [("post_urn", .str post_id),
                   ("post_url", .str ("https://www.linkedin.com/feed/update/" ++ post_id))])

/-- The URL `delete_post` targets: the posts path with the percent-encoded
post URN appended. -/
def delete_post_url (post_urn : String) : String :=
  base_url ++ "/rest/posts/" ++ quote post_urn

/-- Embedding of the response handling of `LinkedinApp.delete_post`:
status 204 is normalized to the deletion-status dict without looking at
the body; any other status goes through `_handle_response`. -/
def delete_post_result (post_urn : String) (response : HttpResponse) :
    Except PyError JVal :=
  if response.status_code == 204 then
    .ok (.obj [("status", .str "deleted"), ("post_urn", .str post_urn)])
  else
    _handle_response response

/-- The URL `update_post` posts to: identical construction to the delete
URL. -/
def update_post_url (post_urn : String) : String :=
  base_url ++ "/rest/posts/" ++ quote post_urn

/-- Embedding of the `patch_data` dict built by `LinkedinApp.update_post`:
a `$set` entry (created first and unconditionally) receiving each supplied
non-ad field under its wire name, and, only when an ad field is supplied,
a sibling `adContext` entry holding its own `$set` with the supplied ad
fields mapped to `dscName` and `dscStatus`. -/
def update_post_patch (commentary content_call_to_action_label
    content_landing_page lifecycle_state ad_context_name ad_context_status :
    Option String) : List (String × JVal) :=
  let set0 : List (String × JVal) := []
  let set1 := match commentary with
    | some v => set0 ++ [("commentary", JVal.str v)]
    | none => set0
  let set2 := match content_call_to_action_label with
    | some v => set1 ++ [("contentCallToActionLabel", JVal.str v)]
    | none => set1
  let set3 := match content_landing_page with
    | some v => set2 ++ [("contentLandingPage", JVal.str v)]
    | none => set2
  let set4 := match lifecycle_state with
    | some v => set3 ++ [("lifecycleState", JVal.str v)]
    | none => set3
  let patch0 : List (String × JVal) := [("$set", JVal.obj set4)]
  if ad_context_name.isSome || ad_context_status.isSome then
    let ad0 : List (String × JVal) := []
    let ad1 := match ad_context_name with
      | some v => ad0 ++ [("dscName", JVal.str v)]
      | none => ad0
    let ad2 := match ad_context_status with
      | some v => ad1 ++ [("dscStatus", JVal.str v)]
      | none => ad1
    patch0 ++ [("adContext", JVal.obj [("$set", JVal.obj ad2)])]
  else
    patch0

/-- Embedding of the `request_body_data` dict of `LinkedinApp.update_post`:
the whole patch wrapped under a single `patch` key. -/
def update_post_request_body (commentary content_call_to_action_label
    content_landing_page lifecycle_state ad_context_name ad_context_status :
    Option String) : JVal :=
  .obj [("patch", .obj (update_post_patch commentary
    content_call_to_action_label content_landing_page lifecycle_state
    ad_context_name ad_context_status))]

/-- Embedding of the response handling of `LinkedinApp.update_post`:
status 204 is normalized to the update-status dict; any other status goes
through `_handle_response`. -/
def update_post_result (post_urn : String) (response : HttpResponse) :
    Except PyError JVal :=
  if response.status_code == 204 then
    .ok (.obj [("status", .str "updated"), ("post_urn", .str post_urn)])
  else
    _handle_response response

/-- Whether an ordered mapping contains a key. -/
def hasKey (l : List (String × JVal)) (k : String) : Bool :=
  l.any (fun p => p.fst == k)

/-- C1: for every create_post call whose response passes the 2xx decoder,
a non-empty `x-restli-id` header value id yields exactly the mapping with
`post_urn = id` and `post_url` the feed-update prefix concatenated with
id, while an absent header raises the `ValueError`. -/
theorem create_post_result_spec (response : HttpResponse) (id : String)
    (h2xx : 200 ≤ response.status_code ∧ response.status_code < 300) :
    (headerGet response.headers "x-restli-id" = some id → id ≠ "" →
      create_post_result response =
        .ok (.obj [("post_urn", .str id),
          ("post_url", .str ("https://www.linkedin.com/feed/update/" ++ id))]))
    ∧ (headerGet response.headers "x-restli-id" = none →
      create_post_result response =
        .error (.valueError "x-restli-id header not found in response")) := by
  have hok : _handle_response response = .ok response.body := by
    unfold _handle_response
    exact if_pos h2xx
  constructor
  · intro hhdr hne
    unfold create_post_result
    rw [hok, hhdr]
    simp [hne]
  · intro hhdr
    unfold create_post_result
    rw [hok, hhdr]

/-- Witness for C1 at a concrete 201 response carrying the header. -/
theorem create_post_result_spec_witness :
    create_post_result ⟨201, [("x-restli-id", "urn:li:share:6844785523593134080")], JVal.obj []⟩ =
      .ok (.obj [("post_urn", .str "urn:li:share:6844785523593134080"),
        ("post_url", .str "https://www.linkedin.com/feed/update/urn:li:share:6844785523593134080")]) :=
  (create_post_result_spec
      ⟨201, [("x-restli-id", "urn:li:share:6844785523593134080")], JVal.obj []⟩
      "urn:li:share:6844785523593134080" (by decide)).1 rfl (by decide)

/-- C2: the header resolver raises the configuration `ValueError` with no
integration, returns a credential-supplied `headers` mapping verbatim, and
otherwise returns exactly the four default headers. -/
theorem get_headers_spec (cred : Credentials) (token : String) :
    _get_headers none = .error (.valueError "Integration not found")
    ∧ (∀ h, cred.headers = some h → _get_headers (some cred) = .ok h)
    ∧ (cred.headers = none → cred.access_token = some token →
        _get_headers (some cred) = .ok
          [("Authorization", "Bearer " ++ token),
           ("X-Restli-Protocol-Version", "2.0.0"),
           ("Content-Type", "application/json"),
           ("LinkedIn-Version", "202507")]) := by
  refine ⟨rfl, ?_, ?_⟩
  · intro h hh
    simp [_get_headers, hh]
  · intro hh ht
    simp [_get_headers, hh, ht]

/-- Witness for C2 at concrete credentials holding only an access token. -/
theorem get_headers_spec_witness :
    _get_headers (some ⟨none, some "tok"⟩) = .ok
      [("Authorization", "Bearer tok"),
       ("X-Restli-Protocol-Version", "2.0.0"),
       ("Content-Type", "application/json"),
       ("LinkedIn-Version", "202507")] :=
  (get_headers_spec ⟨none, some "tok"⟩ "tok").2.2 rfl rfl

/-- C3: with `distribution` omitted the create_post request body is
exactly the six-field object with the fixed default distribution, and the
remaining Python defaults are PUBLIC, PUBLISHED and false. -/
theorem create_post_body_spec (commentary author visibility lifecycle_state :
    String) (is_reshare_disabled : Bool) :
    create_post_request_body commentary author visibility none lifecycle_state
        is_reshare_disabled =
      .obj [("author", .str author),
            ("commentary", .str commentary),
            ("visibility", .str visibility),
            ("distribution", .obj
              [("feedDistribution", .str "MAIN_FEED"),
               ("targetEntities", .arr []),
               ("thirdPartyDistributionChannels", .arr [])]),
            ("lifecycleState", .str lifecycle_state),
            ("isReshareDisabledByAuthor", .bool is_reshare_disabled)]
    ∧ create_post_request_body_defaults commentary author =
      create_post_request_body commentary author "PUBLIC" none "PUBLISHED" false :=
  ⟨rfl, rfl⟩

/-- C4: when commentary is the only optional field supplied, the
update_post request body is exactly the patch with a single-entry `$set`
and no `adContext` key. -/
theorem update_post_body_commentary_only (c : String) :
    update_post_request_body (some c) none none none none none =
      .obj [("patch", .obj [("$set", .obj [("commentary", .str c)])])]
    ∧ hasKey (update_post_patch (some c) none none none none none) "adContext" = false :=
  ⟨rfl, rfl⟩

/-- C5: with only `ad_context_status` supplied the body keeps an empty
`$set` and a sibling `adContext.$set` carrying `dscStatus`; in general the
`adContext` key is present iff an ad field is supplied, and the ad fields
map to the wire names `dscName` and `dscStatus`. -/
theorem update_post_body_ad_context (s : String)
    (commentary cta page lifecycle adName adStatus : Option String) :
    update_post_request_body none none none none none (some s) =
      .obj [("patch", .obj
        [("$set", .obj []),
         ("adContext", .obj [("$set", .obj [("dscStatus", .str s)])])])]
    ∧ hasKey (update_post_patch commentary cta page lifecycle adName adStatus)
        "adContext" = (adName.isSome || adStatus.isSome)
    ∧ (∀ n t, update_post_patch none none none none (some n) (some t) =
        [("$set", .obj []),
         ("adContext", .obj [("$set", .obj
           [("dscName", .str n), ("dscStatus", .str t)])])]) := by
  refine ⟨rfl, ?_, fun n t => rfl⟩
  cases adName <;> cases adStatus <;>
    simp [update_post_patch, hasKey]

/-- C6: any response with status 204 makes delete_post return the
deleted-status dict and update_post the updated-status dict, whatever the
headers and body; any other status is passed to the shared decoder. -/
theorem delete_update_204_spec (post_urn : String) (response : HttpResponse) :
    (response.status_code = 204 →
      delete_post_result post_urn response =
        .ok (.obj [("status", .str "deleted"), ("post_urn", .str post_urn)])
      ∧ update_post_result post_urn response =
        .ok (.obj [("status", .str "updated"), ("post_urn", .str post_urn)]))
    ∧ (response.status_code ≠ 204 →
      delete_post_result post_urn response = _handle_response response
      ∧ update_post_result post_urn response = _handle_response response) := by
  constructor <;> intro h <;>
    exact ⟨by simp [delete_post_result, h], by simp [update_post_result, h]⟩

/-- Witness for C6 at a concrete 204 response with a non-empty body. -/
theorem delete_update_204_spec_witness :
    delete_post_result "urn:li:share:999"
        ⟨204, [("x-foo", "bar")], JVal.str "ignored"⟩ =
      .ok (.obj [("status", .str "deleted"), ("post_urn", .str "urn:li:share:999")])
    ∧ update_post_result "urn:li:share:999"
        ⟨204, [("x-foo", "bar")], JVal.str "ignored"⟩ =
      .ok (.obj [("status", .str "updated"), ("post_urn", .str "urn:li:share:999")]) :=
  (delete_update_204_spec "urn:li:share:999"
    ⟨204, [("x-foo", "bar")], JVal.str "ignored"⟩).1 rfl

/-- C7: delete_post and update_post build their URL by appending the
percent-encoding of the post URN (no character treated as safe beyond the
never-quoted set) to the fixed posts path; on the spec example every colon
becomes %3A, and every reserved character of the URI syntax is escaped. -/
theorem post_url_encoding_spec (post_urn : String) :
    delete_post_url post_urn =
      "https://api.linkedin.com/rest/posts/" ++ quote post_urn
    ∧ update_post_url post_urn =
      "https://api.linkedin.com/rest/posts/" ++ quote post_urn
    ∧ quote "urn:li:share:999" = "urn%3Ali%3Ashare%3A999"
    ∧ delete_post_url "urn:li:share:999" =
      "https://api.linkedin.com/rest/posts/urn%3Ali%3Ashare%3A999"
    ∧ quote ":/?#[]@!$&()*+,;= " =
      "%3A%2F%3F%23%5B%5D%40%21%24%26%28%29%2A%2B%2C%3B%3D%20" :=
  ⟨rfl, rfl, by decide, by decide, by decide⟩

/-- C8: contrary to its own docstring, the code performs no validation of
post_urn: with the empty string both operations still build the bare posts
URL and, on a 204 response, return success carrying the empty URN instead
of raising a validation error before the request. -/
theorem delete_update_empty_urn_no_validation :
    delete_post_url "" = "https://api.linkedin.com/rest/posts/"
    ∧ delete_post_result "" ⟨204, [], JVal.obj []⟩ =
      .ok (.obj [("status", .str "deleted"), ("post_urn", .str "")])
    ∧ update_post_url "" = "https://api.linkedin.com/rest/posts/"
    ∧ update_post_result "" ⟨204, [], JVal.obj []⟩ =
      .ok (.obj [("status", .str "updated"), ("post_urn", .str "")]) :=
  ⟨rfl, rfl, rfl, rfl⟩

/-- C9: a present but empty `x-restli-id` header fails the Python
truthiness test exactly like an absent header, raising the same
`ValueError`. -/
theorem create_post_empty_header_spec (response : HttpResponse)
    (h2xx : 200 ≤ response.status_code ∧ response.status_code < 300)
    (hhdr : headerGet response.headers "x-restli-id" = some "") :
    create_post_result response =
      .error (.valueError "x-restli-id header not found in response") := by
  have hok : _handle_response response = .ok response.body := by
    unfold _handle_response
    exact if_pos h2xx
  unfold create_post_result
  rw [hok, hhdr]
  simp

/-- Witness for C9 at a concrete 201 response with an empty header value. -/
theorem create_post_empty_header_spec_witness :
    create_post_result ⟨201, [("x-restli-id", "")], JVal.obj []⟩ =
      .error (.valueError "x-restli-id header not found in response") :=
  create_post_empty_header_spec ⟨201, [("x-restli-id", "")], JVal.obj []⟩
    (by decide) rfl

/-- C10: with no optional field supplied at all, the update_post request
body is exactly the patch holding an empty `$set` and nothing else. -/
theorem update_post_body_no_fields :
    update_post_request_body none none none none none none =
      .obj [("patch", .obj [("$set", .obj [])])] := rfl

end LinkedinApp
